import Mathlib

/-!
Shallow embedding of the background job processing subsystem of
`apex-boilerplate`:

* `crates/apex-core/src/ports/job_queue.rs` — `Job`, `JobResult`,
  `JobQueueError`, `QueueStats`;
* `crates/apex-infra/src/jobs/memory.rs` — `InMemoryJobQueue`
  (`enqueue`, `start_worker` loop body, detached retry re-send task);
* `crates/apex-infra/src/jobs/redis.rs` — `RedisJobQueue`
  (`enqueue`, `start_worker` loop body).

Machine integers are modelled as `Nat` with explicit wrapping: the stats
counters are Rust `AtomicUsize` (`fetch_add` / `fetch_sub` wrap modulo
2^64), and `Job.attempts` / `Job.max_attempts` are `u32` (release-mode
`+= 1` wraps modulo 2^32).  Timestamps and delays are `Nat` milliseconds.
The opaque `payload` (a `serde_json::Value` the queue never inspects) is a
`String`.  A handler invocation that panics is modelled by the
`HandlerRun.panics` constructor: the Rust source has no `catch_unwind`, so
a panic unwinds the spawned tokio task — no statement after the handler
call runs, and that worker's loop ends (the surrounding process and other
workers continue).
-/

namespace ApexJobs

/-- 2^64, the modulus of Rust `usize` arithmetic (`AtomicUsize::fetch_add`
and `fetch_sub` wrap). -/
def USIZE : Nat := 2 ^ 64

/-- 2^32, the modulus of Rust `u32` arithmetic (`job.attempts += 1` wraps
in release mode). -/
def U32 : Nat := 2 ^ 32

/-- `fetch_add(1, Relaxed)` on an `AtomicUsize`. -/
def incr (x : Nat) : Nat := (x + 1) % USIZE

/-- `fetch_sub(1, Relaxed)` on an `AtomicUsize` (wraps at 0). -/
def decr (x : Nat) : Nat := (x + (USIZE - 1)) % USIZE

/-- `u32` increment with release-mode wrapping (`job.attempts += 1`). -/
def incr32 (x : Nat) : Nat := (x + 1) % U32

/-- `QueueStats` / the `JobStats` atomics shared by both backends
(memory.rs `struct JobStats`, redis.rs `struct JobStats`). -/
structure Stats where
  pending : Nat
  processing : Nat
  completed : Nat
  failed : Nat
deriving DecidableEq, Repr

/-- `apex_core::ports::Job` (job_queue.rs).  `created_at` and the optional
`scheduled_at` are Utc timestamps, embedded as `Nat` milliseconds. -/
structure Job where
  id : String
  job_type : String
  payload : String
  attempts : Nat
  max_attempts : Nat
  created_at : Nat
  scheduled_at : Option Nat
deriving DecidableEq, Repr

/-- `Job::new` (job_queue.rs): fresh uuid `id`, `attempts = 0`,
`max_attempts = 3`, `created_at = now`, `scheduled_at = None`.  The uuid
and the clock are inputs here. -/
def Job.new (job_type : String) (payload : String) (id : String) (now : Nat) : Job :=
  { id := id, job_type := job_type, payload := payload, attempts := 0,
    max_attempts := 3, created_at := now, scheduled_at := none }

/-- `Job::with_max_attempts` (job_queue.rs). -/
def Job.with_max_attempts (j : Job) (max : Nat) : Job :=
  { j with max_attempts := max }

/-- `Job::delayed` (job_queue.rs): `scheduled_at = Some(Utc::now() + delay)`;
the clock reading is the `now` input. -/
def Job.delayed (j : Job) (now : Nat) (delay : Nat) : Job :=
  { j with scheduled_at := some (now + delay) }

/-- `apex_core::ports::JobResult`. -/
inductive JobResult where
  | Success : JobResult
  | Retry : String → JobResult
  | Failed : String → JobResult
deriving DecidableEq, Repr

/-- `apex_core::ports::JobQueueError`. -/
inductive JobQueueError where
  | EnqueueError : String → JobQueueError
  | QueueFull : JobQueueError
  | Backend : String → JobQueueError
deriving DecidableEq, Repr

/-- What one handler invocation does: returns a `JobResult`, or panics
(the future unwinds instead of resolving to an outcome). -/
inductive HandlerRun where
  | returns : JobResult → HandlerRun
  | panics : HandlerRun

/-! ## In-memory backend (`memory.rs`) -/

/-- State of an `InMemoryJobQueue`: the shared stats, the mpsc channel
contents (FIFO, `send` appends, `recv` takes the head), and whether the
channel is closed (the receiver was dropped, so `send` fails). -/
structure MemState where
  stats : Stats
  queue : List Job
  closed : Bool
deriving DecidableEq, Repr

/-- `InMemoryJobQueue::enqueue` (memory.rs lines 84-106).  With
`max_size > 0` and `pending >= max_size` it returns `QueueFull` before
touching anything; otherwise it increments `pending` FIRST and only then
sends on the channel, so a failed send still leaves `pending`
incremented. -/
def memEnqueue (max_size : Nat) (s : MemState) (job : Job) :
    MemState × Option JobQueueError :=
  if 0 < max_size ∧ max_size ≤ s.stats.pending then
    (s, some JobQueueError.QueueFull)
  else
    let s1 : MemState := { s with stats := { s.stats with pending := incr s.stats.pending } }
    if s1.closed then
      (s1, some (JobQueueError.EnqueueError "channel closed"))
    else
      ({ s1 with queue := s1.queue ++ [job] }, none)

/-- Result of one iteration of the in-memory worker loop body on a
dequeued job (memory.rs lines 144-192): the stats afterwards, the job the
handler was invoked on (attempts already incremented), the retry re-send
the iteration spawned — `some (delayMs, job)` means a detached task was
spawned that sleeps `delayMs` and then sends `job` — and whether the
worker task is still alive (`false` exactly when the handler panicked and
the task unwound). -/
structure MemStep where
  stats : Stats
  invoked : Job
  retry : Option (Nat × Job)
  taskAlive : Bool
deriving DecidableEq, Repr

/-- Body of the in-memory worker loop for a job received from the channel
(memory.rs lines 132-186): `pending -= 1`, `processing += 1`,
`attempts += 1`, invoke handler, `processing -= 1`, then match the
outcome: Success → `completed += 1`; Retry with `attempts < max_attempts`
→ spawn a re-send after `100 * attempts` ms and `pending += 1`; Retry
otherwise → `failed += 1`; Failed → `failed += 1`.  A panicking handler
unwinds before the `processing -= 1` line runs. -/
def memWorkerIter (handler : Job → HandlerRun) (s : Stats) (job : Job) : MemStep :=
  let s1 : Stats := { s with pending := decr s.pending, processing := incr s.processing }
  let job1 : Job := { job with attempts := incr32 job.attempts }
  match handler job1 with
  | HandlerRun.panics => { stats := s1, invoked := job1, retry := none, taskAlive := false }
  | HandlerRun.returns r =>
    let s2 : Stats := { s1 with processing := decr s1.processing }
    match r with
    | JobResult.Success =>
        { stats := { s2 with completed := incr s2.completed },
          invoked := job1, retry := none, taskAlive := true }
    | JobResult.Retry _ =>
        if job1.attempts < job1.max_attempts then
          { stats := { s2 with pending := incr s2.pending },
            invoked := job1, retry := some (100 * job1.attempts, job1), taskAlive := true }
        else
          { stats := { s2 with failed := incr s2.failed },
            invoked := job1, retry := none, taskAlive := true }
    | JobResult.Failed _ =>
        { stats := { s2 with failed := incr s2.failed },
          invoked := job1, retry := none, taskAlive := true }

/-- The detached retry task spawned by the in-memory worker (memory.rs
lines 165-178): after its sleep it sends the job; when the send fails
(channel closed) it only logs `tracing::error` — it updates no stats
counter.  Returns the channel contents and the stats afterwards. -/
def memRetryResend (closed : Bool) (queue : List Job) (s : Stats) (job : Job) :
    List Job × Stats :=
  if closed then (queue, s)
  else (queue ++ [job], s)

/-- Iterate the in-memory worker loop body on a single job until it
reaches a terminal state, assuming every scheduled retry re-send succeeds
and the job is then dequeued again.  `fuel` bounds the iteration count;
returns `some (n, stats)` where `n` is the number of handler invocations.
Only outcome-returning handlers are considered (no panic). -/
def runToTerminal (handler : Job → JobResult) :
    Nat → Stats → Job → Option (Nat × Stats)
  | 0, _, _ => none
  | fuel + 1, s, job =>
    let step := memWorkerIter (fun j => HandlerRun.returns (handler j)) s job
    match step.retry with
    | some (_, j1) =>
        (runToTerminal handler fuel step.stats j1).map (fun p => (p.1 + 1, p.2))
    | none => some (1, step.stats)

/-! ## Redis backend (`redis.rs`) -/

/-- Outcome of `conn.blpop(&pending_key, pop_timeout)` in the Redis worker
loop (redis.rs lines 161-173).  A popped payload carries the result of the
subsequent `serde_json::from_str::<Job>`: `some j` for a payload that
deserializes to `j`, `none` for a malformed payload. -/
inductive PopResult where
  | popped : Option Job → PopResult
  | timeout : PopResult
  | backendErr : String → PopResult

/-- Result of one iteration of the Redis worker loop body (redis.rs lines
154-237): the stats afterwards, the job the handler was invoked on
(`none` when the handler never ran), the jobs the iteration RPUSHed back
onto the list, the milliseconds the iteration slept
(`tokio::time::sleep`), and whether the worker task is still alive
(`false` exactly when the handler panicked and the task unwound). -/
structure RedisStep where
  stats : Stats
  invoked : Option Job
  pushed : List Job
  sleptMs : Nat
  taskAlive : Bool
deriving DecidableEq, Repr

/-- Body of the Redis worker loop for one BLPOP outcome (redis.rs lines
161-237).  Timeout → continue.  BLPOP error → log, sleep 1s, continue.
Malformed payload → log, `failed += 1`, continue (note: `pending` is NOT
decremented).  Deserialized job → `pending -= 1`, `processing += 1`,
`attempts += 1`, invoke handler; Success → `processing -= 1`,
`completed += 1`; Retry with `attempts < max_attempts` → RPUSH the job
back immediately (no sleep): on RPUSH success `pending += 1`, on RPUSH
error `failed += 1`; Retry otherwise → `failed += 1`; Failed →
`failed += 1`.  `rpushOk` says whether the re-enqueue RPUSH succeeds. -/
def redisWorkerIter (handler : Job → HandlerRun) (rpushOk : Bool) (s : Stats)
    (pop : PopResult) : RedisStep :=
  match pop with
  | PopResult.timeout =>
      { stats := s, invoked := none, pushed := [], sleptMs := 0, taskAlive := true }
  | PopResult.backendErr _ =>
      { stats := s, invoked := none, pushed := [], sleptMs := 1000, taskAlive := true }
  | PopResult.popped none =>
      { stats := { s with failed := incr s.failed },
        invoked := none, pushed := [], sleptMs := 0, taskAlive := true }
  | PopResult.popped (some job) =>
    let s1 : Stats := { s with pending := decr s.pending, processing := incr s.processing }
    let job1 : Job := { job with attempts := incr32 job.attempts }
    match handler job1 with
    | HandlerRun.panics =>
        { stats := s1, invoked := some job1, pushed := [], sleptMs := 0, taskAlive := false }
    | HandlerRun.returns JobResult.Success =>
        { stats := { s1 with processing := decr s1.processing, completed := incr s1.completed },
          invoked := some job1, pushed := [], sleptMs := 0, taskAlive := true }
    | HandlerRun.returns (JobResult.Retry _) =>
        let s2 : Stats := { s1 with processing := decr s1.processing }
        if job1.attempts < job1.max_attempts then
          if rpushOk then
            { stats := { s2 with pending := incr s2.pending },
              invoked := some job1, pushed := [job1], sleptMs := 0, taskAlive := true }
          else
            { stats := { s2 with failed := incr s2.failed },
              invoked := some job1, pushed := [], sleptMs := 0, taskAlive := true }
        else
          { stats := { s2 with failed := incr s2.failed },
            invoked := some job1, pushed := [], sleptMs := 0, taskAlive := true }
    | HandlerRun.returns (JobResult.Failed _) =>
        { stats := { s1 with processing := decr s1.processing, failed := incr s1.failed },
          invoked := some job1, pushed := [], sleptMs := 0, taskAlive := true }

/-- `RedisJobQueue::enqueue` (redis.rs lines 112-126): serialize the job
(`serOk` says whether `serde_json::to_string` succeeds), RPUSH it
(`pushOk` says whether the RPUSH succeeds), and only then
`pending += 1`.  The list holds deserialization results, so a
successfully pushed job appears as `some job`. -/
def redisEnqueue (lst : List (Option Job)) (s : Stats) (job : Job)
    (serOk pushOk : Bool) : (List (Option Job) × Stats) × Option JobQueueError :=
  if ¬ serOk then ((lst, s), some (JobQueueError.EnqueueError "serialize"))
  else if ¬ pushOk then ((lst, s), some (JobQueueError.Backend "rpush"))
  else ((lst ++ [some job], { s with pending := incr s.pending }), none)

/-- One pass of the Redis worker loop at the level of the backing list:
BLPOP takes the head (RPUSH appends on the right, so the list is FIFO),
the loop body runs on it, and any job the body RPUSHed back is appended
(it deserializes back to itself, hence `map some`).  An empty list is a
BLPOP timeout. -/
def redisLoopStep (handler : Job → HandlerRun) (rpushOk : Bool) (s : Stats)
    (lst : List (Option Job)) : Stats × List (Option Job) :=
  match lst with
  | [] => (s, [])
  | p :: rest =>
      let st := redisWorkerIter handler rpushOk s (PopResult.popped p)
      (st.stats, rest ++ st.pushed.map some)

/-- Iterate the Redis worker loop body on a single job until it reaches a
terminal state, assuming every retry RPUSH succeeds and the pushed job is
eventually BLPOPed and deserialized again.  `fuel` bounds the iteration
count; returns `some (n, stats)` where `n` is the number of handler
invocations.  Only outcome-returning handlers are considered (no
panic). -/
def redisRunToTerminal (handler : Job → JobResult) :
    Nat → Stats → Job → Option (Nat × Stats)
  | 0, _, _ => none
  | fuel + 1, s, job =>
    let step := redisWorkerIter (fun j => HandlerRun.returns (handler j)) true s
      (PopResult.popped (some job))
    match step.pushed with
    | j1 :: _ =>
        (redisRunToTerminal handler fuel step.stats j1).map (fun p => (p.1 + 1, p.2))
    | [] => some (1, step.stats)

/-! ## Arithmetic facts about the wrapping counters -/

theorem incr_eq_of_lt (x : Nat) (h : x + 1 < USIZE) : incr x = x + 1 := by
  simpa [incr] using Nat.mod_eq_of_lt h

theorem decr_eq_of_pos (x : Nat) (h1 : 1 ≤ x) (h2 : x < USIZE) : decr x = x - 1 := by
  have husize : 0 < USIZE := by simp [USIZE]
  have hx : x + (USIZE - 1) = USIZE + (x - 1) := by omega
  have hlt : x - 1 < USIZE := by omega
  simp [decr, hx, Nat.add_mod_left, Nat.mod_eq_of_lt hlt]

theorem incr32_eq_of_lt (x : Nat) (h : x + 1 < U32) : incr32 x = x + 1 := by
  simpa [incr32] using Nat.mod_eq_of_lt h

theorem decr_incr (x : Nat) (h : x + 1 < USIZE) : decr (incr x) = x := by
  rw [incr_eq_of_lt x h, decr_eq_of_pos (x + 1) (by omega) h]
  omega

theorem incr_decr (x : Nat) (h1 : 1 ≤ x) (h2 : x < USIZE) : incr (decr x) = x := by
  rw [decr_eq_of_pos x h1 h2, incr_eq_of_lt (x - 1) (by omega)]
  omega

/-! ## Concrete values used by witnesses and counterexamples -/

/-- A fresh job as `Job::new("email", ...)` builds it: `attempts = 0`,
`max_attempts = 3`, no `scheduled_at`. -/
def emailJob : Job := Job.new "email" "p" "job-1" 0

/-- The same job with `with_max_attempts(0)`. -/
def emailJobMax0 : Job := Job.with_max_attempts emailJob 0

/-- Stats right after this one job was enqueued on an idle queue. -/
def baseStats : Stats := { pending := 1, processing := 0, completed := 0, failed := 0 }

/-! ## Behaviour of a single job run to its terminal state -/

/-- An always-Retry handler drives a job dequeued with
`attempts < max_attempts` through exactly `max_attempts - attempts` further
handler invocations; the run ends with `failed` incremented once,
`completed` untouched, and `pending` back down by the one slot the job
occupied. -/
theorem runToTerminal_retry_exact (r : String) :
    ∀ (fuel : Nat) (s : Stats) (job : Job),
      job.attempts < job.max_attempts →
      job.max_attempts < U32 →
      job.max_attempts - job.attempts ≤ fuel →
      1 ≤ s.pending → s.pending < USIZE →
      s.processing + 1 < USIZE → s.failed + 1 < USIZE →
      runToTerminal (fun _ => JobResult.Retry r) fuel s job =
        some (job.max_attempts - job.attempts,
              { s with pending := s.pending - 1, failed := s.failed + 1 }) := by
  intro fuel
  induction fuel with
  | zero =>
    intro s job h1 h2 h3 hp1 hp2 hpr hf
    omega
  | succ n ih =>
    intro s job h1 h2 h3 hp1 hp2 hpr hf
    have ha1 : job.attempts + 1 < U32 := by omega
    simp only [runToTerminal, memWorkerIter, incr32_eq_of_lt job.attempts ha1]
    by_cases hlt : job.attempts + 1 < job.max_attempts
    · simp only [hlt, if_true]
      rw [incr_decr s.pending hp1 hp2, decr_incr s.processing hpr]
      have := ih { s with pending := s.pending, processing := s.processing }
        { job with attempts := job.attempts + 1 } (by simpa using hlt) (by simpa using h2)
        (by simp; omega) (by simpa using hp1) (by simpa using hp2)
        (by simpa using hpr) (by simpa using hf)
      simp only [this]
      simp [Option.map]
      omega
    · simp only [hlt, if_false]
      rw [decr_incr s.processing hpr, decr_eq_of_pos s.pending hp1 hp2,
        incr_eq_of_lt s.failed hf]
      have : job.max_attempts - job.attempts = 1 := by omega
      simp [this]

/-- Any handler drives a job dequeued with `attempts < max_attempts` to a
terminal state in at most `max_attempts - attempts` handler invocations. -/
theorem runToTerminal_le (handler : Job → JobResult) :
    ∀ (fuel : Nat) (s : Stats) (job : Job),
      job.attempts < job.max_attempts →
      job.max_attempts < U32 →
      job.max_attempts - job.attempts ≤ fuel →
      ∃ n s', runToTerminal handler fuel s job = some (n, s') ∧
        n ≤ job.max_attempts - job.attempts := by
  intro fuel
  induction fuel with
  | zero =>
    intro s job h1 h2 h3
    omega
  | succ m ih =>
    intro s job h1 h2 h3
    have ha1 : job.attempts + 1 < U32 := by omega
    simp only [runToTerminal, memWorkerIter, incr32_eq_of_lt job.attempts ha1]
    cases hh : handler { job with attempts := job.attempts + 1 } with
    | Success =>
      simp only [hh]
      exact ⟨1, _, rfl, by omega⟩
    | Failed reason =>
      simp only [hh]
      exact ⟨1, _, rfl, by omega⟩
    | Retry reason =>
      by_cases hlt : job.attempts + 1 < job.max_attempts
      · simp only [hh, hlt, if_true]
        obtain ⟨n, s', heq, hle⟩ := ih
          { pending := incr (decr s.pending), processing := decr (incr s.processing),
            completed := s.completed, failed := s.failed }
          { job with attempts := job.attempts + 1 }
          (by simpa using hlt) (by simpa using h2) (by simp; omega)
        refine ⟨n + 1, s', ?_, ?_⟩
        · simp [heq]
        · simp at hle
          omega
      · simp only [hh, hlt, if_false]
        exact ⟨1, _, rfl, by omega⟩

/-- An always-Retry handler drives a job dequeued by the Redis worker with
`attempts < max_attempts` through exactly `max_attempts - attempts`
further handler invocations; the run ends with `failed` incremented once,
`completed` untouched, and `pending` back down by the one slot the job
occupied. -/
theorem redisRunToTerminal_retry_exact (r : String) :
    ∀ (fuel : Nat) (s : Stats) (job : Job),
      job.attempts < job.max_attempts →
      job.max_attempts < U32 →
      job.max_attempts - job.attempts ≤ fuel →
      1 ≤ s.pending → s.pending < USIZE →
      s.processing + 1 < USIZE → s.failed + 1 < USIZE →
      redisRunToTerminal (fun _ => JobResult.Retry r) fuel s job =
        some (job.max_attempts - job.attempts,
              { s with pending := s.pending - 1, failed := s.failed + 1 }) := by
  intro fuel
  induction fuel with
  | zero =>
    intro s job h1 h2 h3 hp1 hp2 hpr hf
    omega
  | succ n ih =>
    intro s job h1 h2 h3 hp1 hp2 hpr hf
    have ha1 : job.attempts + 1 < U32 := by omega
    simp only [redisRunToTerminal, redisWorkerIter, incr32_eq_of_lt job.attempts ha1]
    by_cases hlt : job.attempts + 1 < job.max_attempts
    · simp only [hlt, if_true]
      rw [incr_decr s.pending hp1 hp2, decr_incr s.processing hpr]
      have := ih { s with pending := s.pending, processing := s.processing }
        { job with attempts := job.attempts + 1 } (by simpa using hlt) (by simpa using h2)
        (by simp; omega) (by simpa using hp1) (by simpa using hp2)
        (by simpa using hpr) (by simpa using hf)
      simp only [this]
      simp [Option.map]
      omega
    · simp only [hlt, if_false]
      rw [decr_incr s.processing hpr, decr_eq_of_pos s.pending hp1 hp2,
        incr_eq_of_lt s.failed hf]
      have : job.max_attempts - job.attempts = 1 := by omega
      simp [this]

/-- Any handler drives a job dequeued by the Redis worker with
`attempts < max_attempts` to a terminal state in at most
`max_attempts - attempts` handler invocations. -/
theorem redisRunToTerminal_le (handler : Job → JobResult) :
    ∀ (fuel : Nat) (s : Stats) (job : Job),
      job.attempts < job.max_attempts →
      job.max_attempts < U32 →
      job.max_attempts - job.attempts ≤ fuel →
      ∃ n s', redisRunToTerminal handler fuel s job = some (n, s') ∧
        n ≤ job.max_attempts - job.attempts := by
  intro fuel
  induction fuel with
  | zero =>
    intro s job h1 h2 h3
    omega
  | succ m ih =>
    intro s job h1 h2 h3
    have ha1 : job.attempts + 1 < U32 := by omega
    simp only [redisRunToTerminal, redisWorkerIter, incr32_eq_of_lt job.attempts ha1]
    cases hh : handler { job with attempts := job.attempts + 1 } with
    | Success =>
      simp only [hh]
      exact ⟨1, _, rfl, by omega⟩
    | Failed reason =>
      simp only [hh]
      exact ⟨1, _, rfl, by omega⟩
    | Retry reason =>
      by_cases hlt : job.attempts + 1 < job.max_attempts
      · simp only [hh, hlt, if_true]
        obtain ⟨n, s', heq, hle⟩ := ih
          { pending := incr (decr s.pending), processing := decr (incr s.processing),
            completed := s.completed, failed := s.failed }
          { job with attempts := job.attempts + 1 }
          (by simpa using hlt) (by simpa using h2) (by simp; omega)
        refine ⟨n + 1, s', ?_, ?_⟩
        · simp [heq]
        · simp at hle
          omega
      · simp only [hh, hlt, if_false]
        exact ⟨1, _, rfl, by omega⟩

/-- C1, amended to require `max_attempts = k ≥ 1` (and a job entering the
queue with `attempts = 0`, as `Job::new` creates it), on BOTH backends: a
job with `max_attempts = k` is driven to a terminal state with the handler
invoked at most `k` times by the in-memory worker loop and at most `k`
times by the Redis worker loop, and with an always-Retry handler each loop
invokes it exactly `k` times (the first attempt plus `k - 1` retries),
after which `failed` is incremented once, `completed` is untouched, and
the job occupies no queue slot.  The claim as frozen, without `k ≥ 1`, is
refuted on both backends by `max_attempts = 0` (see the counterexample):
each loop still runs the handler once. -/
theorem C1_handler_invocation_bound (handler : Job → JobResult) (r : String)
    (k : Nat) (s : Stats) (job : Job)
    (hatt : job.attempts = 0) (hmax : job.max_attempts = k)
    (hk : 1 ≤ k) (hk32 : k < U32)
    (hp1 : 1 ≤ s.pending) (hp2 : s.pending < USIZE)
    (hpr : s.processing + 1 < USIZE) (hf : s.failed + 1 < USIZE) :
    (∃ n s', runToTerminal handler k s job = some (n, s') ∧ n ≤ k) ∧
    runToTerminal (fun _ => JobResult.Retry r) k s job =
      some (k, { s with pending := s.pending - 1, failed := s.failed + 1 }) ∧
    (∃ n s', redisRunToTerminal handler k s job = some (n, s') ∧ n ≤ k) ∧
    redisRunToTerminal (fun _ => JobResult.Retry r) k s job =
      some (k, { s with pending := s.pending - 1, failed := s.failed + 1 }) := by
  refine ⟨?_, ?_, ?_, ?_⟩
  · obtain ⟨n, s', heq, hle⟩ :=
      runToTerminal_le handler k s job (by omega) (by omega) (by omega)
    exact ⟨n, s', heq, by omega⟩
  · have := runToTerminal_retry_exact r k s job (by omega) (by omega) (by omega)
      hp1 hp2 hpr hf
    simpa [hatt, hmax] using this
  · obtain ⟨n, s', heq, hle⟩ :=
      redisRunToTerminal_le handler k s job (by omega) (by omega) (by omega)
    exact ⟨n, s', heq, by omega⟩
  · have := redisRunToTerminal_retry_exact r k s job (by omega) (by omega) (by omega)
      hp1 hp2 hpr hf
    simpa [hatt, hmax] using this

/-- Witness for the amended C1 at `k = 3` and a fresh email job, on both
backends. -/
theorem C1_handler_invocation_bound_witness :
    (∃ n s', runToTerminal (fun _ => JobResult.Success) 3 baseStats emailJob =
        some (n, s') ∧ n ≤ 3) ∧
    runToTerminal (fun _ => JobResult.Retry "smtp down") 3 baseStats emailJob =
      some (3, { baseStats with pending := baseStats.pending - 1,
                                failed := baseStats.failed + 1 }) ∧
    (∃ n s', redisRunToTerminal (fun _ => JobResult.Success) 3 baseStats emailJob =
        some (n, s') ∧ n ≤ 3) ∧
    redisRunToTerminal (fun _ => JobResult.Retry "smtp down") 3 baseStats emailJob =
      some (3, { baseStats with pending := baseStats.pending - 1,
                                failed := baseStats.failed + 1 }) :=
  C1_handler_invocation_bound (fun _ => JobResult.Success) "smtp down" 3
    baseStats emailJob rfl rfl (by decide) (by decide) (by decide) (by decide)
    (by decide) (by decide)

/-- C1 as frozen is false at `max_attempts = 0` on both backends: the
in-memory worker loop and the Redis worker loop each invoke the handler
once on such a job (the attempt guard runs only after the invocation),
which is more than `max_attempts` times. -/
theorem C1_counterexample :
    (runToTerminal (fun _ => JobResult.Retry "smtp down") 1 baseStats
        emailJobMax0).map Prod.fst = some 1 ∧
    (redisRunToTerminal (fun _ => JobResult.Retry "smtp down") 1 baseStats
        emailJobMax0).map Prod.fst = some 1 ∧
    ¬ (1 ≤ emailJobMax0.max_attempts) := by decide

/-- C6, amended to cover jobs dequeued with `attempts < max_attempts`
(which is every job either backend ever re-enqueues, and every fresh job
whenever `max_attempts ≥ 1`): after the handler invocation of one worker
loop iteration, the invoked job satisfies `attempts ≤ max_attempts`, and
any job the iteration hands back to the backend (the in-memory retry task,
the Redis RPUSH) satisfies `attempts < max_attempts`.  The claim as
frozen, over every job, is refuted by a fresh job with `max_attempts = 0`
(see the counterexample). -/
theorem C6_attempts_invariant (handler : Job → HandlerRun) (rpushOk : Bool)
    (s : Stats) (job : Job)
    (h1 : job.attempts < job.max_attempts) (h2 : job.max_attempts < U32) :
    (memWorkerIter handler s job).invoked.attempts ≤ job.max_attempts ∧
    Option.all (fun p => decide (p.2.attempts < p.2.max_attempts))
      ((memWorkerIter handler s job).retry) = true ∧
    Option.all (fun j => decide (j.attempts ≤ j.max_attempts))
      ((redisWorkerIter handler rpushOk s (PopResult.popped (some job))).invoked) = true ∧
    List.all ((redisWorkerIter handler rpushOk s (PopResult.popped (some job))).pushed)
      (fun j => decide (j.attempts < j.max_attempts)) = true := by
  have ha1 : job.attempts + 1 < U32 := by omega
  simp only [memWorkerIter, redisWorkerIter, incr32_eq_of_lt job.attempts ha1]
  cases hh : handler { job with attempts := job.attempts + 1 } with
  | panics => simp; omega
  | returns r =>
    cases r with
    | Success => simp; omega
    | Failed reason => simp; omega
    | Retry reason =>
      by_cases hlt : job.attempts + 1 < job.max_attempts
      · cases rpushOk <;> simp [hlt] <;> omega
      · simp [hlt]
        omega

/-- Witness for the amended C6: an always-Retry handler on a fresh email
job (`attempts = 0 < 3 = max_attempts`). -/
theorem C6_attempts_invariant_witness :
    (memWorkerIter (fun _ => HandlerRun.returns (JobResult.Retry "smtp down"))
        baseStats emailJob).invoked.attempts ≤ emailJob.max_attempts ∧
    Option.all (fun p => decide (p.2.attempts < p.2.max_attempts))
      ((memWorkerIter (fun _ => HandlerRun.returns (JobResult.Retry "smtp down"))
        baseStats emailJob).retry) = true ∧
    Option.all (fun j => decide (j.attempts ≤ j.max_attempts))
      ((redisWorkerIter (fun _ => HandlerRun.returns (JobResult.Retry "smtp down"))
        true baseStats (PopResult.popped (some emailJob))).invoked) = true ∧
    List.all ((redisWorkerIter (fun _ => HandlerRun.returns (JobResult.Retry "smtp down"))
        true baseStats (PopResult.popped (some emailJob))).pushed)
      (fun j => decide (j.attempts < j.max_attempts)) = true :=
  C6_attempts_invariant (fun _ => HandlerRun.returns (JobResult.Retry "smtp down"))
    true baseStats emailJob (by decide) (by decide)

/-- C6 as frozen is false at `max_attempts = 0`: the in-memory worker
increments `attempts` to 1 before invoking the handler, so after the
invocation completes `attempts = 1 > 0 = max_attempts`. -/
theorem C6_counterexample :
    ¬ ((memWorkerIter (fun _ => HandlerRun.returns (JobResult.Retry "smtp down"))
        baseStats emailJobMax0).invoked.attempts ≤ emailJobMax0.max_attempts) := by
  decide

/-- C2, amended: only the in-memory backend delays the retry.  There, a
Retry with budget left spawns a re-send after `100 * attempts` ms
(`attempts` already incremented for the attempt that just finished).  The
Redis backend RPUSHes the retried job back in the same loop iteration with
no sleep at all (zero delay).  The claim as frozen asserts the
`100 * attempts` delay of both backends (see the counterexample). -/
theorem C2_retry_backoff (r : String) (s : Stats) (job : Job)
    (h1 : job.attempts + 1 < job.max_attempts) (h2 : job.max_attempts < U32) :
    (memWorkerIter (fun _ => HandlerRun.returns (JobResult.Retry r)) s job).retry =
      some (100 * (job.attempts + 1), { job with attempts := job.attempts + 1 }) ∧
    (redisWorkerIter (fun _ => HandlerRun.returns (JobResult.Retry r)) true s
        (PopResult.popped (some job))).pushed =
      [{ job with attempts := job.attempts + 1 }] ∧
    (redisWorkerIter (fun _ => HandlerRun.returns (JobResult.Retry r)) true s
        (PopResult.popped (some job))).sleptMs = 0 := by
  have ha1 : job.attempts + 1 < U32 := by omega
  refine ⟨?_, ?_, ?_⟩ <;>
    simp [memWorkerIter, redisWorkerIter, incr32_eq_of_lt job.attempts ha1, h1]

/-- Witness for the amended C2: a fresh email job, first attempt, so the
in-memory delay is `100 * 1` ms and the Redis push is immediate. -/
theorem C2_retry_backoff_witness :
    (memWorkerIter (fun _ => HandlerRun.returns (JobResult.Retry "smtp down"))
        baseStats emailJob).retry =
      some (100 * (emailJob.attempts + 1), { emailJob with attempts := emailJob.attempts + 1 }) ∧
    (redisWorkerIter (fun _ => HandlerRun.returns (JobResult.Retry "smtp down")) true
        baseStats (PopResult.popped (some emailJob))).pushed =
      [{ emailJob with attempts := emailJob.attempts + 1 }] ∧
    (redisWorkerIter (fun _ => HandlerRun.returns (JobResult.Retry "smtp down")) true
        baseStats (PopResult.popped (some emailJob))).sleptMs = 0 :=
  C2_retry_backoff "smtp down" baseStats emailJob (by decide) (by decide)

/-- C2 as frozen is false on the Redis backend: for a fresh job whose
first attempt returns Retry, the claim requires a `100 * 1` ms delay
before the re-enqueue, but the Redis worker RPUSHes the job back within
the same iteration, sleeping 0 ms. -/
theorem C2_counterexample :
    (redisWorkerIter (fun _ => HandlerRun.returns (JobResult.Retry "smtp down")) true
        baseStats (PopResult.popped (some emailJob))).pushed =
      [{ emailJob with attempts := 1 }] ∧
    (redisWorkerIter (fun _ => HandlerRun.returns (JobResult.Retry "smtp down")) true
        baseStats (PopResult.popped (some emailJob))).sleptMs = 0 ∧
    (0 : Nat) ≠ 100 * 1 := by decide

/-- C4: on the in-memory backend with a configured capacity
(`max_size > 0`), `enqueue` with `pending = max_size` returns `QueueFull`
and leaves the whole queue state — the `pending` counter and the stored
jobs — exactly as it was (the guard returns before the `fetch_add` and
before the channel send). -/
theorem C4_queue_full (max_size : Nat) (s : MemState) (job : Job)
    (hcap : 0 < max_size) (hfull : s.stats.pending = max_size) :
    memEnqueue max_size s job = (s, some JobQueueError.QueueFull) := by
  simp [memEnqueue, hcap, hfull]

/-- Witness for C4: capacity 1, one pending job, a second enqueue. -/
theorem C4_queue_full_witness :
    memEnqueue 1 { stats := baseStats, queue := [emailJob], closed := false }
        (Job.new "email" "p" "job-2" 0) =
      ({ stats := baseStats, queue := [emailJob], closed := false },
       some JobQueueError.QueueFull) :=
  C4_queue_full 1 { stats := baseStats, queue := [emailJob], closed := false }
    (Job.new "email" "p" "job-2" 0) (by decide) (by decide)

/-- C7, amended: only the Redis backend counts a failed re-enqueue.  When
the retry RPUSH fails, the Redis worker increments `failed` (and pushes
nothing).  The in-memory backend's detached re-send task, when its channel
send fails, only logs: it updates no counter, and the job ends up in no
queue — the worker had already incremented `pending` when it scheduled the
re-send, so `pending` is left overcounting.  The claim as frozen asserts
the failed-counting of both backends (see the counterexample). -/
theorem C7_reenqueue_failure (r : String) (q : List Job) (s : Stats) (job : Job)
    (h1 : job.attempts + 1 < job.max_attempts) (h2 : job.max_attempts < U32)
    (hf : s.failed + 1 < USIZE) :
    (redisWorkerIter (fun _ => HandlerRun.returns (JobResult.Retry r)) false s
        (PopResult.popped (some job))).stats.failed = s.failed + 1 ∧
    (redisWorkerIter (fun _ => HandlerRun.returns (JobResult.Retry r)) false s
        (PopResult.popped (some job))).pushed = [] ∧
    memRetryResend true q s job = (q, s) := by
  have ha1 : job.attempts + 1 < U32 := by omega
  refine ⟨?_, ?_, ?_⟩
  · simp [redisWorkerIter, incr32_eq_of_lt job.attempts ha1, h1,
      incr_eq_of_lt s.failed hf]
  · simp [redisWorkerIter, incr32_eq_of_lt job.attempts ha1, h1]
  · simp [memRetryResend]

/-- Witness for the amended C7: fresh email job, failing RPUSH on Redis,
closed channel in memory. -/
theorem C7_reenqueue_failure_witness :
    (redisWorkerIter (fun _ => HandlerRun.returns (JobResult.Retry "smtp down")) false
        baseStats (PopResult.popped (some emailJob))).stats.failed = baseStats.failed + 1 ∧
    (redisWorkerIter (fun _ => HandlerRun.returns (JobResult.Retry "smtp down")) false
        baseStats (PopResult.popped (some emailJob))).pushed = [] ∧
    memRetryResend true [] baseStats emailJob = ([], baseStats) :=
  C7_reenqueue_failure "smtp down" [] baseStats emailJob (by decide) (by decide)
    (by decide)

/-- C7 as frozen is false on the in-memory backend: when the detached
retry task's channel send fails, the stats are returned untouched —
`failed` stays 0, nothing is counted — and the job is in no queue. -/
theorem C7_counterexample :
    memRetryResend true [] baseStats emailJob = ([], baseStats) ∧
    baseStats.failed = 0 := by decide

/-- A job created at time 0 and delayed by one hour
(`Job::delayed(Duration::hours(1))`): `scheduled_at = Some(3600000)`. -/
def delayedEmailJob : Job := Job.delayed (Job.new "email" "p" "job-3" 0) 0 3600000

/-- C3 evaluated at the failing input, a handler that panics on a fresh
email job: neither worker loop has a `catch_unwind`, so the panic unwinds
the spawned task — `taskAlive = false`, the loop does NOT continue —
nothing is normalized to `Failed` (`failed` stays 0), and on the in-memory
backend `processing` is left permanently incremented because the
`processing -= 1` after the handler call never runs.  The claim (and
spec sections 4.2 and 7) say the panic must be caught, treated as
`Failed(handler crashed)`, and the loop must continue. -/
theorem C3_panic_kills_worker :
    (memWorkerIter (fun _ => HandlerRun.panics) baseStats emailJob).taskAlive = false ∧
    (memWorkerIter (fun _ => HandlerRun.panics) baseStats emailJob).stats.failed = 0 ∧
    (memWorkerIter (fun _ => HandlerRun.panics) baseStats emailJob).stats.processing = 1 ∧
    (redisWorkerIter (fun _ => HandlerRun.panics) true baseStats
        (PopResult.popped (some emailJob))).taskAlive = false ∧
    (redisWorkerIter (fun _ => HandlerRun.panics) true baseStats
        (PopResult.popped (some emailJob))).stats.failed = 0 := by decide

/-- C5 evaluated at the failing input, a job scheduled one hour in the
future and dequeued at creation time: neither worker loop ever reads
`scheduled_at` — the in-memory worker invokes the handler on it at once
(and here completes it, `completed = 1`), and the Redis worker invokes the
handler too.  The claim (and the field's own doc comment, "When to
execute the job") says no worker may invoke the handler before
`scheduled_at`. -/
theorem C5_scheduled_at_ignored :
    (memWorkerIter (fun _ => HandlerRun.returns JobResult.Success) baseStats
        delayedEmailJob).invoked.scheduled_at = some 3600000 ∧
    (memWorkerIter (fun _ => HandlerRun.returns JobResult.Success) baseStats
        delayedEmailJob).stats.completed = 1 ∧
    (redisWorkerIter (fun _ => HandlerRun.returns JobResult.Success) true baseStats
        (PopResult.popped (some delayedEmailJob))).invoked.isSome = true ∧
    delayedEmailJob.created_at < 3600000 := by decide

/-- C8: enqueue then process-to-Success, on either backend.  The enqueue
succeeds (room in the queue), stores the job, and the worker iteration on
it ends with `completed` exactly one above the pre-enqueue baseline while
`pending`, `processing` and `failed` equal their baseline values (the
record-update equality fixes every other field of `s`). -/
theorem C8_success_net_effect (max_size : Nat) (s : Stats) (q : List Job)
    (lst : List (Option Job)) (job : Job)
    (hroom : max_size = 0 ∨ s.pending < max_size)
    (hp : s.pending + 1 < USIZE) (hpr : s.processing + 1 < USIZE)
    (hc : s.completed + 1 < USIZE) :
    (memEnqueue max_size { stats := s, queue := q, closed := false } job).2 = none ∧
    (memEnqueue max_size { stats := s, queue := q, closed := false } job).1.queue = q ++ [job] ∧
    (memWorkerIter (fun _ => HandlerRun.returns JobResult.Success)
        (memEnqueue max_size { stats := s, queue := q, closed := false } job).1.stats job).stats =
      { s with completed := s.completed + 1 } ∧
    (redisEnqueue lst s job true true).2 = none ∧
    (redisEnqueue lst s job true true).1.1 = lst ++ [some job] ∧
    (redisWorkerIter (fun _ => HandlerRun.returns JobResult.Success) true
        (redisEnqueue lst s job true true).1.2 (PopResult.popped (some job))).stats =
      { s with completed := s.completed + 1 } := by
  have hcond : ¬ (0 < max_size ∧ max_size ≤ s.pending) := by
    rcases hroom with h | h <;> omega
  refine ⟨?_, ?_, ?_, ?_, ?_, ?_⟩ <;>
    simp [memEnqueue, redisEnqueue, memWorkerIter, redisWorkerIter, hcond,
      decr_incr s.pending hp, decr_incr s.processing hpr,
      incr_eq_of_lt s.completed hc]

/-- Witness for C8: default capacity 10000, idle baseline stats, empty
backends, one fresh email job. -/
theorem C8_success_net_effect_witness :
    (memEnqueue 10000 { stats := ⟨0, 0, 0, 0⟩, queue := [], closed := false } emailJob).2 = none ∧
    (memEnqueue 10000 { stats := ⟨0, 0, 0, 0⟩, queue := [], closed := false } emailJob).1.queue =
      [] ++ [emailJob] ∧
    (memWorkerIter (fun _ => HandlerRun.returns JobResult.Success)
        (memEnqueue 10000 { stats := ⟨0, 0, 0, 0⟩, queue := [], closed := false }
          emailJob).1.stats emailJob).stats =
      { (⟨0, 0, 0, 0⟩ : Stats) with completed := (⟨0, 0, 0, 0⟩ : Stats).completed + 1 } ∧
    (redisEnqueue [] ⟨0, 0, 0, 0⟩ emailJob true true).2 = none ∧
    (redisEnqueue [] ⟨0, 0, 0, 0⟩ emailJob true true).1.1 = [] ++ [some emailJob] ∧
    (redisWorkerIter (fun _ => HandlerRun.returns JobResult.Success) true
        (redisEnqueue [] ⟨0, 0, 0, 0⟩ emailJob true true).1.2
        (PopResult.popped (some emailJob))).stats =
      { (⟨0, 0, 0, 0⟩ : Stats) with completed := (⟨0, 0, 0, 0⟩ : Stats).completed + 1 } :=
  C8_success_net_effect 10000 ⟨0, 0, 0, 0⟩ [] [] emailJob (Or.inr (by decide))
    (by decide) (by decide) (by decide)

/-- C9: a popped payload that fails to deserialize makes the Redis worker
increment `failed` once and nothing else: the handler is not invoked,
nothing is pushed back (no retry), no sleep, and the loop continues
(`taskAlive = true`); the step function returns normally, so no error
reaches any caller. -/
theorem C9_malformed_payload (handler : Job → HandlerRun) (rpushOk : Bool)
    (s : Stats) (hf : s.failed + 1 < USIZE) :
    redisWorkerIter handler rpushOk s (PopResult.popped none) =
      { stats := { s with failed := s.failed + 1 }, invoked := none,
        pushed := [], sleptMs := 0, taskAlive := true } := by
  simp [redisWorkerIter, incr_eq_of_lt s.failed hf]

/-- Witness for C9 at the baseline stats. -/
theorem C9_malformed_payload_witness :
    redisWorkerIter (fun _ => HandlerRun.returns JobResult.Success) true baseStats
        (PopResult.popped none) =
      { stats := { baseStats with failed := baseStats.failed + 1 }, invoked := none,
        pushed := [], sleptMs := 0, taskAlive := true } :=
  C9_malformed_payload (fun _ => HandlerRun.returns JobResult.Success) true baseStats
    (by decide)

/-- C10: the `pending` decrement in the Redis worker sits after the
deserialization, so popping a malformed payload removes it from the list
while leaving `pending` untouched: starting from a `pending` counter
consistent with the list contents, the step leaves `pending` exceeding the
number of payloads actually remaining by exactly 1, and no later statement
of the loop revisits the discarded payload. -/
theorem C10_pending_overcount (handler : Job → HandlerRun) (rpushOk : Bool)
    (s : Stats) (rest : List (Option Job))
    (hcount : s.pending = rest.length + 1) :
    (redisLoopStep handler rpushOk s (none :: rest)).1.pending = s.pending ∧
    (redisLoopStep handler rpushOk s (none :: rest)).2 = rest ∧
    (redisLoopStep handler rpushOk s (none :: rest)).1.pending =
      (redisLoopStep handler rpushOk s (none :: rest)).2.length + 1 := by
  refine ⟨?_, ?_, ?_⟩ <;> simp [redisLoopStep, redisWorkerIter, hcount]

/-- Witness for C10: one malformed payload as the whole list,
`pending = 1`. -/
theorem C10_pending_overcount_witness :
    (redisLoopStep (fun _ => HandlerRun.returns JobResult.Success) true baseStats
        [none]).1.pending = baseStats.pending ∧
    (redisLoopStep (fun _ => HandlerRun.returns JobResult.Success) true baseStats
        [none]).2 = [] ∧
    (redisLoopStep (fun _ => HandlerRun.returns JobResult.Success) true baseStats
        [none]).1.pending =
      (redisLoopStep (fun _ => HandlerRun.returns JobResult.Success) true baseStats
        [none]).2.length + 1 :=
  C10_pending_overcount (fun _ => HandlerRun.returns JobResult.Success) true baseStats
    [] (by decide)

end ApexJobs
